import Mathlib

/-!
Verification of the air-quality inference server (`src/main.py`).

The server loads one regression artifact at startup and exposes a single
batch-prediction endpoint `POST /predict`.  We shallowly embed the request
pipeline: pydantic schema validation of the request body, assembly of the
pandas DataFrame, invocation of the (opaque) model, and mapping of the
model's numeric output rows back to typed pollutant records, together with
the error translation to HTTP responses.

Numeric values are modelled by `ℚ`: the pipeline performs no arithmetic on
them (values are carried from the request or the model straight through to
the response), so any faithful carrier works and `ℚ` keeps everything
decidable.
-/

namespace AirQuality

/-- A JSON-like value, as the request body arrives at the endpoint.
Objects keep their fields in order, as Python dicts do. -/
inductive Json where
  | num (q : ℚ)
  | int (n : ℤ)
  | str (s : String)
  | bool (b : Bool)
  | null
  | arr (elems : List Json)
  | obj (fields : List (String × Json))

/-- `PredictionInput` of `main.py`: one validated location record with the
two required float fields `Latitude` and `Longitude`. -/
structure PredictionInput where
  Latitude : ℚ
  Longitude : ℚ
deriving DecidableEq

/-- `PredictionOutput` of `main.py`: one prediction record with the six
required float fields, in the order they are declared in the schema. -/
structure PredictionOutput where
  PM2_5 : ℚ
  PM10 : ℚ
  O3 : ℚ
  NO2 : ℚ
  CO : ℚ
  SO2 : ℚ
deriving DecidableEq

/-- `PredictionBatchInput` of `main.py`: the request body schema, a list of
locations under the required key `locations`. -/
structure PredictionBatchInput where
  locations : List PredictionInput
deriving DecidableEq

/-! ### Pydantic float coercion

`main.py` declares `Latitude: float` and `Longitude: float`.  Pydantic's
`float` validator accepts an actual JSON number and otherwise coerces with
Python's `float(v)`: an int, a bool, or a numeric string converts; `None`,
arrays, objects and non-numeric strings are rejected.  We embed the
decimal-literal fragment of `float(str)`: an optional sign, then digits
with an optional fractional part (at least one digit overall). -/

/-- Numeric value of a list of decimal digit characters (most significant
first), as accumulated by repeated `*10 + digit`. -/
def natFromDigits (cs : List Char) : ℕ :=
  cs.foldl (fun a c => a * 10 + (c.toNat - 48)) 0

/-- Parse an unsigned decimal literal: `digits`, `digits.digits`,
`digits.` or `.digits` (at least one digit in total). -/
def parseUnsigned (cs : List Char) : Option ℚ :=
  let intPart := cs.takeWhile Char.isDigit
  let rest := cs.dropWhile Char.isDigit
  match rest with
  | [] =>
      if intPart.isEmpty then none
      else some ((natFromDigits intPart : ℚ))
  | '.' :: frac =>
      if frac.all Char.isDigit && !(intPart.isEmpty && frac.isEmpty) then
        some ((natFromDigits intPart : ℚ)
          + (natFromDigits frac : ℚ) / (10 : ℚ) ^ frac.length)
      else none
  | _ => none

/-- Python's `float(s)` on the decimal-literal fragment: optional sign,
then an unsigned decimal literal. -/
def parseFloat (s : String) : Option ℚ :=
  match s.data with
  | '-' :: cs => (parseUnsigned cs).map (fun q => -q)
  | '+' :: cs => parseUnsigned cs
  | cs => parseUnsigned cs

/-- Pydantic's validator for a `float` field applied to one JSON value:
numbers pass through, ints, bools and numeric strings coerce via
`float(v)`, everything else is a validation error. -/
def coerceFloat : Json → Option ℚ
  | Json.num q => some q
  | Json.int n => some (n : ℚ)
  | Json.bool b => some (if b then 1 else 0)
  | Json.str s => parseFloat s
  | _ => none

/-- Validate one element of `locations` against the `PredictionInput`
schema: it must be an object whose `Latitude` and `Longitude` fields are
both present and float-coercible. -/
def validatePredictionInput (j : Json) : Option PredictionInput :=
  match j with
  | Json.obj fields =>
      match (fields.lookup "Latitude").bind coerceFloat,
            (fields.lookup "Longitude").bind coerceFloat with
      | some la, some lo => some ⟨la, lo⟩
      | _, _ => none
  | _ => none

/-- Validate the `locations` array element by element; any invalid element
fails the whole batch (pydantic validates the full list before the
endpoint body runs). -/
def validateLocations : List Json → Option (List PredictionInput)
  | [] => some []
  | j :: rest =>
      match validatePredictionInput j, validateLocations rest with
      | some l, some ls => some (l :: ls)
      | _, _ => none

/-- Validate a request body against `PredictionBatchInput`: an object with
a `locations` key holding an array of valid location records. -/
def validateBatchInput (body : Json) : Option PredictionBatchInput :=
  match body with
  | Json.obj fields =>
      match fields.lookup "locations" with
      | some (Json.arr elems) => (validateLocations elems).map PredictionBatchInput.mk
      | _ => none
  | _ => none

/-! ### DataFrame assembly and the prediction pipeline -/

/-- The slice of a pandas DataFrame the pipeline uses: the column labels
and the rows (each row the values under those labels, in column order). -/
structure DataFrame where
  columns : List String
  rows : List (List ℚ)
deriving DecidableEq

/-- `pd.DataFrame([loc.dict() for loc in data.locations])`: from a list of
`{'Latitude': …, 'Longitude': …}` dicts, pandas takes the columns from the
dict keys in insertion order; from the empty list it builds an empty frame
with NO columns at all. -/
def mkDataFrame (locations : List PredictionInput) : DataFrame :=
  { columns := if locations.isEmpty then [] else ["Latitude", "Longitude"]
    rows := locations.map (fun l => [l.Latitude, l.Longitude]) }

/-- The opaque regression artifact: `model.predict(X_df)` either returns a
matrix (a list of numeric rows) or raises, carrying an error message. -/
def Model : Type := DataFrame → Except String (List (List ℚ))

/-- The fixed output column order of `main.py`
(`output_targets = ['PM2_5', 'PM10', 'O3', 'NO2', 'CO', 'SO2']`). -/
def output_targets : List String :=
  ["PM2_5", "PM10", "O3", "NO2", "CO", "SO2"]

/-- The error message pydantic raises when required `PredictionOutput`
fields are missing from the keyword arguments. -/
def fieldRequiredMsg : String := "validation error for PredictionOutput: field required"

/-- `PredictionOutput(**dict(zip(output_targets, pred.tolist())))`: zip
truncates to the shorter list, so the first six values of `pred` are bound
to the six pollutant names in order; if `pred` has fewer than six values
some required field is missing and pydantic raises. -/
def mkPredictionOutput (pred : List ℚ) : Except String PredictionOutput :=
  let d := List.zip output_targets pred
  match d.lookup "PM2_5", d.lookup "PM10", d.lookup "O3",
        d.lookup "NO2", d.lookup "CO", d.lookup "SO2" with
  | some a, some b, some c, some dd, some e, some f =>
      Except.ok ⟨a, b, c, dd, e, f⟩
  | _, _, _, _, _, _ => Except.error fieldRequiredMsg

/-- The `for pred in predictions_array` loop: build one `PredictionOutput`
per row, in order; the first row that fails aborts the loop with its
exception and no partial result is returned. -/
def formatPredictions : List (List ℚ) → Except String (List PredictionOutput)
  | [] => Except.ok []
  | pred :: rest =>
      match mkPredictionOutput pred, formatPredictions rest with
      | Except.ok out, Except.ok outs => Except.ok (out :: outs)
      | Except.error e, _ => Except.error e
      | _, Except.error e => Except.error e

/-- The column-check failure message of `main.py` line 88. -/
def columnsMsg : String :=
  "Input data must contain 'Latitude' and 'Longitude' columns."

/-- The body of the `try:` block of `predict_air_quality` (lines 82-104):
assemble the DataFrame, check its columns are exactly
`['Latitude', 'Longitude']`, invoke the model, and map the output rows.
The second component counts how many times `model.predict` was invoked. -/
def predictBody (model : Model) (locations : List PredictionInput) :
    Except String (List PredictionOutput) × ℕ :=
  let X_df := mkDataFrame locations
  if X_df.columns = ["Latitude", "Longitude"] then
    match model X_df with
    | Except.error e => (Except.error e, 1)
    | Except.ok predictions_array => (formatPredictions predictions_array, 1)
  else
    (Except.error columnsMsg, 0)

/-- Decidable equality of `Except` values, component by component. -/
instance exceptDecEq {ε α : Type} [DecidableEq ε] [DecidableEq α] :
    DecidableEq (Except ε α) := fun x y =>
  match x, y with
  | Except.ok a, Except.ok b =>
      if h : a = b then isTrue (by rw [h]) else isFalse (by simp [h])
  | Except.error e, Except.error f =>
      if h : e = f then isTrue (by rw [h]) else isFalse (by simp [h])
  | Except.ok _, Except.error _ => isFalse (by simp)
  | Except.error _, Except.ok _ => isFalse (by simp)

/-- An HTTP error response, as raised via `HTTPException`. -/
structure HTTPError where
  status_code : ℕ
  detail : String
deriving DecidableEq

/-- What one call of the endpoint produces: the response (a success body
or an HTTP error), the messages printed to the operational log, and the
number of model invocations. -/
structure HandlerResult where
  response : Except HTTPError (List PredictionOutput)
  logs : List String
  modelCalls : ℕ
deriving DecidableEq

/-- `predict_air_quality` (lines 76-109): run the pipeline body; any
exception is caught, logged as `Prediction Error: …` and re-raised as
`HTTPException(500, "Internal Server Error: …")`. -/
def predict_air_quality (model : Model) (data : PredictionBatchInput) :
    HandlerResult :=
  match predictBody model data.locations with
  | (Except.ok results, n) => ⟨Except.ok results, [], n⟩
  | (Except.error e, n) =>
      ⟨Except.error ⟨500, "Internal Server Error: " ++ e⟩,
       ["Prediction Error: " ++ e], n⟩

/-- The full `POST /predict` boundary: FastAPI first validates the body
against `PredictionBatchInput`; a schema violation is answered with a
422 before the endpoint function ever runs, so the model is not invoked
and nothing is logged by the handler. -/
def handlePredict (model : Model) (body : Json) : HandlerResult :=
  match validateBatchInput body with
  | none => ⟨Except.error ⟨422, "Unprocessable Entity"⟩, [], 0⟩
  | some data => predict_air_quality model data

/-! ### Startup (lines 9-23 of `main.py`) -/

/-- The artifact path constant of `main.py`. -/
def MODEL_PATH : String := "xgboost_air_quality_model.joblib"

/-- The message of the `FileNotFoundError` raised when the artifact file
is absent (lines 12-16). -/
def fileNotFoundMsg : String :=
  "Model file not found at: " ++ MODEL_PATH ++ ". " ++
  "Please ensure 'xgboost_air_quality_model.joblib' is in the same directory."

/-- The message of the `RuntimeError` raised when `joblib.load` fails
(lines 18-23), embedding the underlying error. -/
def loadFailedMsg (e : String) : String := "Failed to load the model: " ++ e

/-- Module-level startup of `main.py`: if the artifact file does not
exist, raise `FileNotFoundError`; otherwise attempt `joblib.load`, and
re-raise a failure as `RuntimeError`.  A raise at module level aborts the
import, so an `Except.error` here means the process never begins serving;
only an `Except.ok` yields a loaded model the app can use. -/
def startup {M : Type} (fileExists : Bool) (load : Except String M) :
    Except String M :=
  if fileExists then
    match load with
    | Except.ok m => Except.ok m
    | Except.error e => Except.error (loadFailedMsg e)
  else
    Except.error fileNotFoundMsg

/-! ### Concrete model instances used to evaluate the pipeline -/

/-- A well-behaved model: one all-zero 6-value row per input row. -/
def zeroModel : Model :=
  fun df => Except.ok (df.rows.map (fun _ => [0, 0, 0, 0, 0, 0]))

/-- A misbehaving model that always returns two 6-value rows. -/
def twoRowModel : Model :=
  fun _ => Except.ok [[1, 2, 3, 4, 5, 6], [7, 8, 9, 10, 11, 12]]

/-- A model that always returns the zero-row matrix. -/
def emptyMatModel : Model := fun _ => Except.ok []

/-- The model of the spec's concrete scenario: one row
`[12.3, 20.1, 5.4, 3.2, 0.8, 1.1]`. -/
def exampleModel : Model :=
  fun _ => Except.ok [[12.3, 20.1, 5.4, 3.2, 0.8, 1.1]]

/-- A model returning one 7-value row. -/
def sevenValModel : Model := fun _ => Except.ok [[1, 2, 3, 4, 5, 6, 7]]

/-- A model returning one 3-value row. -/
def threeValModel : Model := fun _ => Except.ok [[1, 2, 3]]

/-- A model whose predict always raises. -/
def failModel : Model := fun _ => Except.error "boom"

/-- The request body of the spec's concrete scenario. -/
def exampleBody : Json :=
  Json.obj [("locations", Json.arr
    [Json.obj [("Latitude", Json.num 40.71), ("Longitude", Json.num (-74.00))]])]

/-! ### Helper lemmas -/

/-- A row with at least six values yields the output binding the first six
values to the pollutant fields in order (any extra values are dropped by
`zip`). -/
theorem mkPredictionOutput_cons6 (p0 p1 p2 p3 p4 p5 : ℚ) (extra : List ℚ) :
    mkPredictionOutput (p0 :: p1 :: p2 :: p3 :: p4 :: p5 :: extra)
      = Except.ok ⟨p0, p1, p2, p3, p4, p5⟩ := rfl

/-- A row with fewer than six values leaves a required field without a
binding, so building the output record fails. -/
theorem mkPredictionOutput_short (pred : List ℚ) (h : pred.length < 6) :
    mkPredictionOutput pred = Except.error fieldRequiredMsg := by
  rcases pred with _ | ⟨a, _ | ⟨b, _ | ⟨c, _ | ⟨d, _ | ⟨e, _ | ⟨f, rest⟩⟩⟩⟩⟩⟩
  · rfl
  · rfl
  · rfl
  · rfl
  · rfl
  · rfl
  · simp only [List.length_cons] at h; omega

/-- If every row of the matrix has at least six values, the mapping loop
succeeds and produces one output per row. -/
theorem formatPredictions_ok_of_long (matrix : List (List ℚ))
    (h : ∀ row ∈ matrix, 6 ≤ row.length) :
    ∃ outs, formatPredictions matrix = Except.ok outs
      ∧ outs.length = matrix.length := by
  induction matrix with
  | nil => exact ⟨[], rfl, rfl⟩
  | cons pred rest ih =>
      have hlen : 6 ≤ pred.length := h pred (List.mem_cons_self pred rest)
      obtain ⟨outs, hok, hl⟩ := ih (fun r hr => h r (List.mem_cons_of_mem pred hr))
      rcases pred with _ | ⟨a, _ | ⟨b, _ | ⟨c, _ | ⟨d, _ | ⟨e, _ | ⟨f, ex⟩⟩⟩⟩⟩⟩
      · simp at hlen
      · simp at hlen
      · simp at hlen
      · simp at hlen
      · simp at hlen
      · simp at hlen
      · refine ⟨⟨a, b, c, d, e, f⟩ :: outs, ?_, by simp [hl]⟩
        simp [formatPredictions, mkPredictionOutput_cons6, hok]

/-- The mapping loop builds the i-th output from the i-th row. -/
theorem formatPredictions_ok_get (matrix : List (List ℚ))
    (outs : List PredictionOutput)
    (h : formatPredictions matrix = Except.ok outs) :
    outs.length = matrix.length ∧
    ∀ i (h1 : i < matrix.length) (h2 : i < outs.length),
      mkPredictionOutput (matrix.get ⟨i, h1⟩) = Except.ok (outs.get ⟨i, h2⟩) := by
  induction matrix generalizing outs with
  | nil =>
      simp [formatPredictions] at h
      subst h
      exact ⟨rfl, by intro i h1 _; simp at h1⟩
  | cons pred rest ih =>
      cases hh : mkPredictionOutput pred with
      | error e => simp [formatPredictions, hh] at h
      | ok out =>
          cases hr : formatPredictions rest with
          | error e => simp [formatPredictions, hh, hr] at h
          | ok outs1 =>
              simp [formatPredictions, hh, hr] at h
              subst h
              obtain ⟨hl, hg⟩ := ih outs1 hr
              refine ⟨by simp [hl], ?_⟩
              intro i h1 h2
              cases i with
              | zero => simpa using hh
              | succ j =>
                  simp only [List.get_cons_succ]
                  exact hg j (by simpa using h1) (by simpa using h2)

/-- If some row of the matrix is shorter than six values, the mapping loop
fails with some error. -/
theorem formatPredictions_error_of_short (matrix : List (List ℚ))
    (bad : List ℚ) (hmem : bad ∈ matrix) (hshort : bad.length < 6) :
    ∃ msg, formatPredictions matrix = Except.error msg := by
  induction matrix with
  | nil => simp at hmem
  | cons pred rest ih =>
      rcases List.mem_cons.mp hmem with hEq | hTail
      · refine ⟨fieldRequiredMsg, ?_⟩
        have hp : mkPredictionOutput pred = Except.error fieldRequiredMsg :=
          mkPredictionOutput_short pred (hEq ▸ hshort)
        simp [formatPredictions, hp]
      · obtain ⟨msg, hmsg⟩ := ih hTail
        cases hh : mkPredictionOutput pred with
        | error e => exact ⟨e, by simp [formatPredictions, hh]⟩
        | ok out => exact ⟨msg, by simp [formatPredictions, hh, hmsg]⟩

/-- An invalid element anywhere in the `locations` array makes the whole
batch fail validation. -/
theorem validateLocations_none (elems : List Json) (bad : Json)
    (hmem : bad ∈ elems) (hfail : validatePredictionInput bad = none) :
    validateLocations elems = none := by
  induction elems with
  | nil => simp at hmem
  | cons j rest ih =>
      rcases List.mem_cons.mp hmem with hEq | hTail
      · subst hEq; simp [validateLocations, hfail]
      · cases hj : validatePredictionInput j with
        | none => simp [validateLocations, hj]
        | some l => simp [validateLocations, hj, ih hTail]

/-- A non-empty batch assembles a DataFrame with exactly the two expected
columns. -/
theorem mkDataFrame_columns (locations : List PredictionInput)
    (h : locations ≠ []) :
    (mkDataFrame locations).columns = ["Latitude", "Longitude"] := by
  cases locations with
  | nil => exact absurd rfl h
  | cons l rest => rfl

/-- The endpoint body invokes the model at most once per request. -/
theorem predictBody_calls_le_one (model : Model)
    (locations : List PredictionInput) :
    (predictBody model locations).2 ≤ 1 := by
  unfold predictBody
  cases h : mkDataFrame locations with
  | mk cols rows =>
      by_cases hc : cols = ["Latitude", "Longitude"]
      · subst hc
        simp only [h]
        cases model ⟨["Latitude", "Longitude"], rows⟩ <;> simp
      · simp only [h]
        simp [hc]

/-! ### Claims -/

/-- C1 (counterexample): for the empty input batch, `predict_air_quality`
does NOT return an empty success batch: `pd.DataFrame([])` has no columns,
so the column check raises and the endpoint answers with a 500 error (the
model is indeed not invoked, but the status is not a success). -/
theorem C1_empty_batch_not_success :
    (predict_air_quality zeroModel ⟨[]⟩).response ≠ Except.ok []
    ∧ (predict_air_quality zeroModel ⟨[]⟩).response
        = Except.error ⟨500, "Internal Server Error: " ++ columnsMsg⟩
    ∧ (predict_air_quality zeroModel ⟨[]⟩).modelCalls = 0 :=
  ⟨fun h => Except.noConfusion h, rfl, rfl⟩

/-- C1 (amended): for the empty input batch, whatever the model is, the
model's predict is never invoked, and the endpoint returns the 500-class
column-check error instead of an empty success batch. -/
theorem C1_empty_batch (model : Model) :
    (predict_air_quality model ⟨[]⟩).modelCalls = 0
    ∧ (predict_air_quality model ⟨[]⟩).response
        = Except.error ⟨500, "Internal Server Error: " ++ columnsMsg⟩ :=
  ⟨rfl, rfl⟩

/-- C1 (witness): the amended statement evaluated at the all-zeros model. -/
theorem C1_empty_batch_witness :
    (predict_air_quality zeroModel ⟨[]⟩).modelCalls = 0
    ∧ (predict_air_quality zeroModel ⟨[]⟩).response
        = Except.error ⟨500, "Internal Server Error: " ++ columnsMsg⟩ :=
  C1_empty_batch zeroModel

/-- C2 (counterexample): one validated coordinate against a model that
returns two rows: the endpoint does NOT detect the row-count mismatch; it
answers with a success batch of two elements. -/
theorem C2_mismatch_not_detected :
    (predict_air_quality twoRowModel ⟨[⟨0, 0⟩]⟩).response
      = Except.ok [⟨1, 2, 3, 4, 5, 6⟩, ⟨7, 8, 9, 10, 11, 12⟩]
    ∧ (predict_air_quality twoRowModel ⟨[⟨0, 0⟩]⟩).logs = [] :=
  ⟨rfl, rfl⟩

/-- C2 (amended): `predict_air_quality` performs no row-count check: for
any non-empty validated batch, if the model returns a matrix of M rows
each carrying at least six values, the endpoint returns a success batch of
M elements, whether or not M equals the input length. -/
theorem C2_no_row_count_check (model : Model) (data : PredictionBatchInput)
    (matrix : List (List ℚ))
    (hne : data.locations ≠ [])
    (hm : model (mkDataFrame data.locations) = Except.ok matrix)
    (hrows : ∀ row ∈ matrix, 6 ≤ row.length) :
    ∃ results, (predict_air_quality model data).response = Except.ok results
      ∧ results.length = matrix.length := by
  obtain ⟨outs, hok, hl⟩ := formatPredictions_ok_of_long matrix hrows
  refine ⟨outs, ?_, hl⟩
  simp [predict_air_quality, predictBody,
    mkDataFrame_columns data.locations hne, hm, hok]

/-- C2 (witness): the amended statement at one coordinate and the two-row
model, where the success batch has two elements. -/
theorem C2_no_row_count_check_witness :
    ∃ results,
      (predict_air_quality twoRowModel ⟨[⟨0, 0⟩]⟩).response = Except.ok results
      ∧ results.length = 2 :=
  C2_no_row_count_check twoRowModel ⟨[⟨0, 0⟩]⟩
    [[1, 2, 3, 4, 5, 6], [7, 8, 9, 10, 11, 12]]
    (by simp) rfl (by decide)

/-- C3 (counterexample): the empty batch passes schema validation, yet the
frame assembled from it has NO columns, so the defensive column check is
reached and fires: the check is not unreachable over validated input. -/
theorem C3_check_reachable_at_empty :
    validateBatchInput (Json.obj [("locations", Json.arr [])])
      = some ⟨[]⟩
    ∧ (mkDataFrame []).columns ≠ ["Latitude", "Longitude"]
    ∧ (predictBody zeroModel []).1 = Except.error columnsMsg :=
  ⟨rfl, fun h => List.noConfusion h, rfl⟩

/-- C3 (amended): the defensive column check is unreachable for every
NON-EMPTY validated batch: the assembled frame's columns are then exactly
`["Latitude", "Longitude"]`, so the check passes and the pipeline
proceeds to the model. -/
theorem C3_check_unreachable_nonempty (locations : List PredictionInput)
    (h : locations ≠ []) :
    (mkDataFrame locations).columns = ["Latitude", "Longitude"]
    ∧ ∀ model : Model, (predictBody model locations).2 = 1 := by
  refine ⟨mkDataFrame_columns locations h, ?_⟩
  intro model
  unfold predictBody
  simp only [mkDataFrame_columns locations h, if_pos rfl]
  cases model (mkDataFrame locations) <;> rfl

/-- C3 (witness): the amended statement at a singleton batch. -/
theorem C3_check_unreachable_nonempty_witness :
    (mkDataFrame [⟨1, 2⟩]).columns = ["Latitude", "Longitude"]
    ∧ ∀ model : Model, (predictBody model [⟨1, 2⟩]).2 = 1 :=
  C3_check_unreachable_nonempty [⟨1, 2⟩] (by simp)

/-- C4 (counterexample): at N = 0 the claim fails: the model (here one
that returns the 0-row matrix on every input) would return an N-row
matrix, yet the endpoint does not return a 0-element success batch — it
answers with the 500-class column-check error. -/
theorem C4_fails_at_zero :
    emptyMatModel (mkDataFrame []) = Except.ok []
    ∧ (predict_air_quality emptyMatModel ⟨[]⟩).response
        = Except.error ⟨500, "Internal Server Error: " ++ columnsMsg⟩
    ∧ (predict_air_quality emptyMatModel ⟨[]⟩).response ≠ Except.ok [] :=
  ⟨rfl, rfl, fun h => Except.noConfusion h⟩

/-- C4 (amended): order preservation holds for every NON-EMPTY batch: if
the model returns one row per input coordinate (each row at least six
values), the success batch has exactly N elements and the i-th output is
built from the i-th row of the model's output. -/
theorem C4_order_preservation (model : Model) (data : PredictionBatchInput)
    (matrix : List (List ℚ))
    (hne : data.locations ≠ [])
    (hm : model (mkDataFrame data.locations) = Except.ok matrix)
    (hlen : matrix.length = data.locations.length)
    (hrows : ∀ row ∈ matrix, 6 ≤ row.length) :
    ∃ results, (predict_air_quality model data).response = Except.ok results
      ∧ results.length = data.locations.length
      ∧ ∀ i (h1 : i < matrix.length) (h2 : i < results.length),
          mkPredictionOutput (matrix.get ⟨i, h1⟩)
            = Except.ok (results.get ⟨i, h2⟩) := by
  obtain ⟨outs, hok, _⟩ := formatPredictions_ok_of_long matrix hrows
  obtain ⟨hl, hg⟩ := formatPredictions_ok_get matrix outs hok
  refine ⟨outs, ?_, by omega, hg⟩
  simp [predict_air_quality, predictBody,
    mkDataFrame_columns data.locations hne, hm, hok]

/-- C4 (witness): the amended statement at one coordinate and the
spec's example model. -/
theorem C4_order_preservation_witness :
    ∃ results,
      (predict_air_quality exampleModel ⟨[⟨1, 2⟩]⟩).response
        = Except.ok results
      ∧ results.length = 1
      ∧ ∀ i (h1 : i < ([[12.3, 20.1, 5.4, 3.2, 0.8, 1.1]] :
              List (List ℚ)).length) (h2 : i < results.length),
          mkPredictionOutput
              (([[12.3, 20.1, 5.4, 3.2, 0.8, 1.1]] :
                List (List ℚ)).get ⟨i, h1⟩)
            = Except.ok (results.get ⟨i, h2⟩) :=
  C4_order_preservation exampleModel ⟨[⟨1, 2⟩]⟩
    [[12.3, 20.1, 5.4, 3.2, 0.8, 1.1]] (by simp) rfl rfl (by decide)

/-- C5: a Pollutant Estimate binds the i-th value of the row to the i-th
pollutant name in the fixed order `PM2_5, PM10, O3, NO2, CO, SO2`; in
particular the single location `{"Latitude": 40.71, "Longitude": -74.00}`
against a model answering `[12.3, 20.1, 5.4, 3.2, 0.8, 1.1]` yields
exactly the expected single-record batch. -/
theorem C5_pollutant_binding (p0 p1 p2 p3 p4 p5 : ℚ) (extra : List ℚ) :
    output_targets = ["PM2_5", "PM10", "O3", "NO2", "CO", "SO2"]
    ∧ mkPredictionOutput (p0 :: p1 :: p2 :: p3 :: p4 :: p5 :: extra)
        = Except.ok ⟨p0, p1, p2, p3, p4, p5⟩
    ∧ (handlePredict exampleModel exampleBody).response
        = Except.ok [⟨12.3, 20.1, 5.4, 3.2, 0.8, 1.1⟩] :=
  ⟨rfl, mkPredictionOutput_cons6 p0 p1 p2 p3 p4 p5 extra, rfl⟩

/-- C5 (witness): the binding evaluated at the spec's row values. -/
theorem C5_pollutant_binding_witness :
    output_targets = ["PM2_5", "PM10", "O3", "NO2", "CO", "SO2"]
    ∧ mkPredictionOutput [12.3, 20.1, 5.4, 3.2, 0.8, 1.1]
        = Except.ok ⟨12.3, 20.1, 5.4, 3.2, 0.8, 1.1⟩
    ∧ (handlePredict exampleModel exampleBody).response
        = Except.ok [⟨12.3, 20.1, 5.4, 3.2, 0.8, 1.1⟩] :=
  C5_pollutant_binding 12.3 20.1 5.4 3.2 0.8 1.1 []

/-- C6: a batch containing one element that fails the `PredictionInput`
schema is answered with a 422 client error by the validation layer: the
endpoint body never runs, so the model is not invoked, nothing is logged,
and no element of the batch yields a success output. -/
theorem C6_validation_fail_fast (model : Model)
    (fields : List (String × Json)) (elems : List Json) (bad : Json)
    (hloc : fields.lookup "locations" = some (Json.arr elems))
    (hbad : bad ∈ elems) (hfail : validatePredictionInput bad = none) :
    handlePredict model (Json.obj fields)
      = ⟨Except.error ⟨422, "Unprocessable Entity"⟩, [], 0⟩ := by
  have hv := validateLocations_none elems bad hbad hfail
  simp [handlePredict, validateBatchInput, hloc, hv]

/-- C6 (witness): a batch whose only element misses `Longitude`, against
the all-zeros model. -/
theorem C6_validation_fail_fast_witness :
    handlePredict zeroModel
        (Json.obj [("locations", Json.arr [Json.obj [("Latitude", Json.num 1)]])])
      = ⟨Except.error ⟨422, "Unprocessable Entity"⟩, [], 0⟩ :=
  C6_validation_fail_fast zeroModel
    [("locations", Json.arr [Json.obj [("Latitude", Json.num 1)]])]
    [Json.obj [("Latitude", Json.num 1)]]
    (Json.obj [("Latitude", Json.num 1)])
    rfl (List.mem_singleton.mpr rfl) rfl

/-- C7: any error raised inside the endpoint body (table assembly, model
invocation or output mapping) is caught at the boundary, logged as
`Prediction Error: …`, and re-surfaced as a 500 error whose detail embeds
the underlying message; the model is invoked at most once, so nothing is
retried. -/
theorem C7_error_translation (model : Model) (data : PredictionBatchInput)
    (e : String) (n : ℕ)
    (h : predictBody model data.locations = (Except.error e, n)) :
    predict_air_quality model data
      = ⟨Except.error ⟨500, "Internal Server Error: " ++ e⟩,
         ["Prediction Error: " ++ e], n⟩
    ∧ n ≤ 1 := by
  refine ⟨by simp [predict_air_quality, h], ?_⟩
  have hn := predictBody_calls_le_one model data.locations
  rw [h] at hn
  exact hn

/-- C7 (witness): the translation evaluated at a model whose predict
raises `boom` on one coordinate. -/
theorem C7_error_translation_witness :
    predict_air_quality failModel ⟨[⟨0, 0⟩]⟩
      = ⟨Except.error ⟨500, "Internal Server Error: " ++ "boom"⟩,
         ["Prediction Error: " ++ "boom"], 1⟩
    ∧ (1 : ℕ) ≤ 1 :=
  C7_error_translation failModel ⟨[⟨0, 0⟩]⟩ "boom" 1 rfl

/-- C8: at startup, a missing artifact file aborts the module (no model
value is produced, so the process cannot serve), and its
`FileNotFoundError` message differs from the `RuntimeError` message of
every deserialization failure, keeping the two failure modes
distinguishable. -/
theorem C8_startup_failure_modes (load : Except String Unit) (e : String) :
    startup false load = Except.error fileNotFoundMsg
    ∧ (startup false load).isOk = false
    ∧ startup true (Except.error e : Except String Unit)
        = Except.error (loadFailedMsg e)
    ∧ fileNotFoundMsg ≠ loadFailedMsg e := by
  refine ⟨rfl, rfl, rfl, ?_⟩
  intro h
  have h2 : fileNotFoundMsg.data
      = ("Failed to load the model: ").data ++ e.data := by
    rw [← String.data_append]
    exact congrArg String.data h
  have h3 := congrArg List.head? h2
  simp [fileNotFoundMsg, MODEL_PATH] at h3

/-- C8 (witness): the startup contract at a concrete load result and
error text. -/
theorem C8_startup_failure_modes_witness :
    startup false (Except.ok ()) = Except.error fileNotFoundMsg
    ∧ (startup false (Except.ok () : Except String Unit)).isOk = false
    ∧ startup true (Except.error "bad magic" : Except String Unit)
        = Except.error (loadFailedMsg "bad magic")
    ∧ fileNotFoundMsg ≠ loadFailedMsg "bad magic" :=
  C8_startup_failure_modes (Except.ok ()) "bad magic"

/-- C9: a model row with more than six values is silently truncated to
its first six and answered as a success (here a 7-value row), while a
row with fewer than six values fails record construction and the request
is answered with a 500 server error (here a 3-value row). -/
theorem C9_row_arity (pred : List ℚ) (hshort : pred.length < 6) :
    (predict_air_quality sevenValModel ⟨[⟨0, 0⟩]⟩).response
      = Except.ok [⟨1, 2, 3, 4, 5, 6⟩]
    ∧ mkPredictionOutput pred = Except.error fieldRequiredMsg
    ∧ (predict_air_quality threeValModel ⟨[⟨0, 0⟩]⟩).response
        = Except.error ⟨500, "Internal Server Error: " ++ fieldRequiredMsg⟩ :=
  ⟨rfl, mkPredictionOutput_short pred hshort, rfl⟩

/-- C9 (witness): the short-row failure at the 3-value row. -/
theorem C9_row_arity_witness :
    ([(1 : ℚ), 2, 3] : List ℚ).length < 6
    ∧ mkPredictionOutput [(1 : ℚ), 2, 3] = Except.error fieldRequiredMsg :=
  ⟨by decide, (C9_row_arity [(1 : ℚ), 2, 3] (by decide)).2.1⟩

/-- C10: the `float` fields of the input schema coerce convertible JSON
values: an integer or a numeric string is accepted as its float value,
while a non-convertible value is rejected; acceptance of a location
record is exactly float-convertibility of both fields. -/
theorem C10_float_coercion (n : ℤ) (x y : Json) :
    coerceFloat (Json.int n) = some (n : ℚ)
    ∧ coerceFloat (Json.str "40.71") = some (4071 / 100 : ℚ)
    ∧ coerceFloat (Json.str "abc") = none
    ∧ coerceFloat Json.null = none
    ∧ (validatePredictionInput
          (Json.obj [("Latitude", x), ("Longitude", y)])).isSome
        = ((coerceFloat x).isSome && (coerceFloat y).isSome)
    ∧ validatePredictionInput
          (Json.obj [("Latitude", Json.str "40.71"),
                     ("Longitude", Json.int (-74))])
        = some ⟨4071 / 100, -74⟩ := by
  refine ⟨rfl, ?_, rfl, rfl, ?_, ?_⟩
  · have h : coerceFloat (Json.str "40.71")
        = some (((40 : ℕ) : ℚ) + ((71 : ℕ) : ℚ) / (10 : ℚ) ^ (2 : ℕ)) := rfl
    rw [h]
    norm_num
  · simp only [validatePredictionInput, List.lookup]
    cases hx : coerceFloat x <;> cases hy : coerceFloat y <;>
      simp [hx, hy]
  · have h : validatePredictionInput
          (Json.obj [("Latitude", Json.str "40.71"),
                     ("Longitude", Json.int (-74))])
        = some ⟨((40 : ℕ) : ℚ) + ((71 : ℕ) : ℚ) / (10 : ℚ) ^ (2 : ℕ),
                ((-74 : ℤ) : ℚ)⟩ := rfl
    rw [h]
    simp only [Option.some.injEq, PredictionInput.mk.injEq]
    constructor <;> norm_num

/-- C10 (witness): the coercion facts at concrete values. -/
theorem C10_float_coercion_witness :
    coerceFloat (Json.int 7) = some ((7 : ℤ) : ℚ)
    ∧ coerceFloat (Json.str "40.71") = some (4071 / 100 : ℚ) :=
  ⟨(C10_float_coercion 7 (Json.num 1) (Json.num 2)).1,
   (C10_float_coercion 7 (Json.num 1) (Json.num 2)).2.1⟩

end AirQuality
